import Mathlib

/-!
Verification of the raystack SkySpark client library (Rust) against its
natural-language specification.  The development shallowly embeds the
SCRAM authentication handshake (src/auth.rs) and the token-refresh /
retry session layer (src/lib.rs).  HTTP transport and the server are
modelled as explicit response values handed to each round; the crypto
primitives (the `ring` crate, an external collaborator) are modelled as
an abstract structure carrying the documented output-length laws.
Byte strings are modelled as `List Nat`; wire text is ASCII throughout,
so strings are converted to bytes at the code-point level.
-/

/-- Models `str::as_bytes` at the code-point level (all wire data handled
by the library is ASCII, where code points and UTF-8 bytes coincide). -/
def strBytes (s : String) : List Nat :=
  s.data.map Char.toNat

/-- Models one hex digit of Rust's `{:x}` formatting. -/
def hexDigit (n : Nat) : Char :=
  if n < 10 then Char.ofNat (48 + n) else Char.ofNat (87 + n)

/-- Models Rust's `write!("{:x}", byte)`: lowercase hex with no leading
zero (one digit for bytes below 16, two digits otherwise). -/
def hexByte (b : Nat) : List Char :=
  if b < 16 then [hexDigit b] else [hexDigit (b / 16), hexDigit (b % 16)]

/-- Embeds `generate_nonce` from src/auth.rs: the 32 random bytes filled
in by the rng are the parameter, and each byte is written with `{:x}`.
The rng fill error path (a hardware rng failure) is not modelled: the
random bytes are supplied directly. -/
def generate_nonce (rngBytes : List Nat) : String :=
  String.mk (rngBytes.map hexByte).flatten

/-- The standard base64 alphabet (base64::CharacterSet::Standard). -/
def base64StdAlphabet : List Char :=
  "ABCDEFGHIJKLMNOPQRSTUVWXYZabcdefghijklmnopqrstuvwxyz0123456789+/".data

/-- The character the standard base64 alphabet assigns to a 6-bit value. -/
def b64Char (n : Nat) : Char :=
  base64StdAlphabet.getD n 'A'

/-- Core of base64 encoding: emits the data characters for the byte
stream, three input bytes to four output characters, with the final
partial group (one or two bytes) emitting two or three characters and no
padding. -/
def base64EncodeCore : List Nat → List Char
  | [] => []
  | [a] => [b64Char (a / 4), b64Char (a % 4 * 16)]
  | [a, b] => [b64Char (a / 4), b64Char (a % 4 * 16 + b / 16), b64Char (b % 16 * 4)]
  | a :: b :: c :: rest =>
      b64Char (a / 4) :: b64Char (a % 4 * 16 + b / 16) ::
        b64Char (b % 16 * 4 + c / 64) :: b64Char (c % 64) :: base64EncodeCore rest

/-- Embeds `base64_encode_no_padding` from src/auth.rs: standard
alphabet, `pad = false`. -/
def base64_encode_no_padding (bytes : List Nat) : String :=
  String.mk (base64EncodeCore bytes)

/-- Models `base64::encode` (used by `is_server_valid` in src/auth.rs):
the crate's default config is the standard alphabet WITH padding, so the
output is completed to a multiple of four characters with `=`. -/
def base64_encode (bytes : List Nat) : String :=
  String.mk (base64EncodeCore bytes ++
    (match bytes.length % 3 with
     | 0 => []
     | 1 => ['=', '=']
     | _ => ['=']))

/-- The 6-bit value of a standard-alphabet base64 character. -/
def b64Value (c : Char) : Option Nat :=
  let n := c.toNat
  if 65 ≤ n ∧ n ≤ 90 then some (n - 65)
  else if 97 ≤ n ∧ n ≤ 122 then some (n - 97 + 26)
  else if 48 ≤ n ∧ n ≤ 57 then some (n - 48 + 52)
  else if c = '+' then some 62
  else if c = '/' then some 63
  else none

/-- Core of base64 decoding: four characters to three bytes, accepting a
final partial group of two or three characters (with the canonical
trailing-bits check the base64 crate performs), and rejecting a group of
one character or any character outside the alphabet. -/
def base64DecodeCore : List Char → Option (List Nat)
  | [] => some []
  | [_] => none
  | [c1, c2] => do
      let v1 ← b64Value c1
      let v2 ← b64Value c2
      if v2 % 16 = 0 then some [v1 * 4 + v2 / 16] else none
  | [c1, c2, c3] => do
      let v1 ← b64Value c1
      let v2 ← b64Value c2
      let v3 ← b64Value c3
      if v3 % 4 = 0 then some [v1 * 4 + v2 / 16, v2 % 16 * 16 + v3 / 4] else none
  | c1 :: c2 :: c3 :: c4 :: rest => do
      let v1 ← b64Value c1
      let v2 ← b64Value c2
      let v3 ← b64Value c3
      let v4 ← b64Value c4
      let tail ← base64DecodeCore rest
      some ((v1 * 4 + v2 / 16) :: (v2 % 16 * 16 + v3 / 4) :: (v3 % 4 * 64 + v4) :: tail)

/-- Models `base64::decode` (src/auth.rs line 110, used on the server
salt): the base64 crate accepts both padded and unpadded input when
decoding, so trailing `=` characters are stripped before decoding. -/
def base64Decode (s : String) : Option (List Nat) :=
  base64DecodeCore ((s.data.reverse.dropWhile (fun c => c = '=')).reverse)

deriving instance DecidableEq for Except

/-- Error type `Base64DecodeError` from src/auth.rs (carries a message
rendered from the underlying error; the exact crate message text is not
modelled). -/
structure Base64DecodeError where
  msg : String
deriving DecidableEq

/-- Embeds `base64_decode_no_padding` from src/auth.rs: decode the
base64 text to bytes, then decode the bytes as UTF-8 (modelled at the
ASCII level: the wire data is ASCII, and any byte of 128 or above is
rejected the way `String::from_utf8` rejects invalid UTF-8).  Both
failure modes map to `Base64DecodeError`, as in the source. -/
def base64_decode_no_padding (s : String) : Except Base64DecodeError String :=
  match base64Decode s with
  | none => .error ⟨"could not decode a base64 string"⟩
  | some bytes =>
    if bytes.all (fun b => b < 128) then
      .ok (String.mk (bytes.map Char.ofNat))
    else
      .error ⟨"could not decode bytes as UTF8"⟩

/-- Models `str::parse::<u32>`: an optional leading `+`, then one or
more decimal digits, with the value required to fit in 32 bits. -/
def parseU32 (s : String) : Option Nat :=
  let cs := match s.data with
    | '+' :: rest => rest
    | cs => cs
  if cs.isEmpty then none
  else if cs.all Char.isDigit then
    let n := cs.foldl (fun acc c => acc * 10 + (c.toNat - 48)) 0
    if n < 4294967296 then some n else none
  else none

/-- Error type `KeyValuePairParseError` from src/auth.rs. -/
structure KeyValuePairParseError where
  msg : String
deriving DecidableEq

/-- The `KeyValuePairs` collection from src/auth.rs. -/
structure KeyValuePairs where
  key_value_pairs : List (String × String)
deriving DecidableEq

/-- Embeds `KeyValuePairs::get` from src/auth.rs: the first pair with a
matching key, or a parse error naming the missing key. -/
def KeyValuePairs.get (kvps : KeyValuePairs) (key : String) :
    Except KeyValuePairParseError String :=
  match kvps.key_value_pairs.find? (fun p => p.1 == key) with
  | some p => .ok p.2
  | none => .error ⟨"missing key " ++ key ++ " in key-value pairs"⟩

/-- Embeds the fragment step of `parse_key_value_pairs` (the closure in
src/auth.rs lines 346-358): find the first `=`, split there, and trim
every leading `=` from the value part; a fragment without `=` is a parse
error. -/
def parse_one_pair (t : String) : Except KeyValuePairParseError (String × String) :=
  let before := t.data.takeWhile (fun c => c ≠ '=')
  let rest := t.data.dropWhile (fun c => c ≠ '=')
  match rest with
  | [] => .error ⟨"No '=' symbol in key-value pair " ++ t⟩
  | _ :: _ => .ok (String.mk before, String.mk (rest.dropWhile (fun c => c = '=')))

/-- Splits a character list at every delimiter character, keeping empty
pieces, as Rust's `str::split` with a character set does. -/
def splitChars (p : Char → Bool) : List Char → List (List Char)
  | [] => [[]]
  | c :: rest =>
    let r := splitChars p rest
    if p c then [] :: r
    else
      match r with
      | t :: ts => (c :: t) :: ts
      | [] => [[c]]

/-- Models `str::to_lowercase` (ASCII level, which is all the source
compares: the literal `scram`). -/
def strToLower (s : String) : String :=
  String.mk (s.data.map Char.toLower)

/-- The fragments `parse_key_value_pairs` actually maps over: the input
split on space and comma, with empty fragments and any fragment whose
lowercasing is `scram` filtered out. -/
def splitFragments (s : String) : List String :=
  ((splitChars (fun c => c = ' ' ∨ c = ',') s.data).map String.mk).filter
    (fun t => strToLower t ≠ "scram" ∧ t ≠ "")

/-- Models `Iterator::collect::<Result<Vec<_>, _>>`: the list of all
results if every element succeeded, otherwise the first error. -/
def collectResults {ε α : Type} : List (Except ε α) → Except ε (List α)
  | [] => .ok []
  | x :: xs => do
      let a ← x
      let rest ← collectResults xs
      pure (a :: rest)

/-- Embeds `parse_key_value_pairs` from src/auth.rs. -/
def parse_key_value_pairs (s : String) :
    Except KeyValuePairParseError KeyValuePairs :=
  match collectResults ((splitFragments s).map parse_one_pair) with
  | .error e => .error e
  | .ok pairs => .ok ⟨pairs⟩

/-- A JSON value, modelling `serde_json::Value`.  Numeric values are
modelled as integers: no claim inspects non-integral JSON numbers. -/
inductive Json where
  | null : Json
  | bool (b : Bool) : Json
  | num (n : Int) : Json
  | str (s : String) : Json
  | arr (items : List Json) : Json
  | obj (fields : List (String × Json)) : Json

/-- Models the escaping of one character inside a rendered JSON string
(quote and backslash; other escapes are not exercised by any claim). -/
def jsonEscapeChar (c : Char) : String :=
  if c = '\x22' then "\\\x22" else if c = '\\' then "\\\\" else String.mk [c]

mutual

/-- Models `serde_json`'s compact rendering of a value, used only inside
error messages of the grid conversion. -/
def jsonRender : Json → String
  | .null => "null"
  | .bool true => "true"
  | .bool false => "false"
  | .num n => toString n
  | .str s => "\x22" ++ String.join (s.data.map jsonEscapeChar) ++ "\x22"
  | .arr items => "[" ++ jsonRenderItems items ++ "]"
  | .obj fields => "\x7b" ++ jsonRenderFields fields ++ "\x7d"

/-- Renders the comma-separated items of a JSON array. -/
def jsonRenderItems : List Json → String
  | [] => ""
  | [x] => jsonRender x
  | x :: xs => jsonRender x ++ "," ++ jsonRenderItems xs

/-- Renders the comma-separated fields of a JSON object. -/
def jsonRenderFields : List (String × Json) → String
  | [] => ""
  | [(k, v)] => "\x22" ++ k ++ "\x22:" ++ jsonRender v
  | (k, v) :: xs => "\x22" ++ k ++ "\x22:" ++ jsonRender v ++ "," ++ jsonRenderFields xs

end

/-- Models `serde_json::Value::index` with a string key: the field of an
object, and `Null` when the key is missing or the value is not an
object. -/
def Json.getField : Json → String → Json
  | .obj fields, key =>
      match fields.find? (fun p => p.1 == key) with
      | some p => p.2
      | none => .null
  | _, _ => .null

/-- Models `Value::is_object`. -/
def Json.isObject : Json → Bool
  | .obj _ => true
  | _ => false

/-- Models `Value::as_array`. -/
def Json.asArray : Json → Option (List Json)
  | .arr items => some items
  | _ => none

/-- Models `Value::as_object`. -/
def Json.asObject : Json → Option (List (String × Json))
  | .obj fields => some fields
  | _ => none

/-- Models `Value::as_str`. -/
def Json.asStr : Json → Option String
  | .str s => some s
  | _ => none

/-- An HTTP response as the library observes it: a status code, the
response headers, and the body as parsed JSON (`none` when the body is
not valid JSON, the case where `reqwest::Response::json` fails).  A
header value of `none` models a header whose bytes are not convertible
to a string (`HeaderValue::to_str` failure); header names are stored
lowercase, as in reqwest's `HeaderMap`. -/
structure HttpResponse where
  status : Nat
  headers : List (String × Option String)
  body : Option Json

/-- Embeds `parse_key_value_pairs_from_header` from src/auth.rs. -/
def parse_key_value_pairs_from_header (header : String) (res : HttpResponse) :
    Except KeyValuePairParseError KeyValuePairs :=
  match res.headers.find? (fun p => p.1 == header) with
  | none => .error ⟨"missing HTTP header " ++ header⟩
  | some (_, none) =>
      .error ⟨"could not convert HTTP header " ++ header ++ " to a string"⟩
  | some (_, some header_value_str) => parse_key_value_pairs header_value_str

/-- The `HashFunction` enum from src/auth.rs. -/
inductive HashFunction where
  | sha256 : HashFunction
  | sha512 : HashFunction
deriving DecidableEq

/-- Error type `ParseHashFunctionError` from src/auth.rs. -/
structure ParseHashFunctionError where
  unparsable_hash : String
deriving DecidableEq

/-- Embeds `FromStr for HashFunction` from src/auth.rs. -/
def HashFunction.from_str (s : String) :
    Except ParseHashFunctionError HashFunction :=
  match s with
  | "SHA-256" => .ok .sha256
  | "SHA-512" => .ok .sha512
  | other => .error ⟨other⟩

/-- Embeds `HashFunction::dk_len` from src/auth.rs: the digest length in
bytes. -/
def HashFunction.dk_len : HashFunction → Nat
  | .sha256 => 32
  | .sha512 => 64

/-- The cryptographic primitives of the `ring` crate (an external
collaborator, not part of this repository): HMAC signing, message
digest, and PBKDF2 derivation for the selected hash function.  The two
length laws record the documented output lengths of HMAC and of the
digest (32 bytes for SHA-256, 64 for SHA-512), which
`HashFunction::hmac_sign` and `HashFunction::digest` inherit. -/
structure CryptoPrimitives where
  hmacSign : HashFunction → List Nat → List Nat → List Nat
  digest : HashFunction → List Nat → List Nat
  pbkdf2 : HashFunction → List Nat → List Nat → Nat → List Nat
  hmac_length : ∀ hf key data, (hmacSign hf key data).length = hf.dk_len
  digest_length : ∀ hf input, (digest hf input).length = hf.dk_len

/-- The `HandshakeError` enum from src/auth.rs (each variant carries
what the source keeps of the underlying error). -/
inductive HandshakeError where
  | base64Decode (msg : String) : HandshakeError
  | generateNonce (msg : String) : HandshakeError
  | headerToStr : HandshakeError
  | keyValuePairParse (msg : String) : HandshakeError
  | parseHashFunction (unparsable_hash : String) : HandshakeError
  | parseIterations : HandshakeError
  | utf8Decode : HandshakeError
deriving DecidableEq

/-- The `InternalAuthError` enum from src/auth.rs.  The `Http` variant
carries a `reqwest::Error` in the source; a message stands in for it
here (the transport oracle of this model always delivers a response, so
the variant is never produced). -/
inductive InternalAuthError where
  | handshake (e : HandshakeError) : InternalAuthError
  | http (msg : String) : InternalAuthError
  | serverValidation (server_id : String) : InternalAuthError
deriving DecidableEq

/-- The conversion `From<KeyValuePairParseError> for InternalAuthError`
from src/auth.rs (`into_auth_error`): wrap as a handshake error. -/
def internalOfKvp (e : KeyValuePairParseError) : InternalAuthError :=
  .handshake (.keyValuePairParse e.msg)

/-- The public `AuthError` enum from src/auth.rs.  Its `Internal`
variant boxes the handshake error; the box is modelled by carrying the
`HandshakeError` itself. -/
inductive AuthError where
  | http (msg : String) : AuthError
  | internal (e : HandshakeError) : AuthError
  | serverValidation (server_id : String) : AuthError
deriving DecidableEq

/-- Embeds `From<InternalAuthError> for AuthError` from src/auth.rs. -/
def authErrorOfInternal : InternalAuthError → AuthError
  | .handshake e => .internal e
  | .http msg => .http msg
  | .serverValidation server_id => .serverValidation server_id

/-- The outcome of running a fallible operation that may also panic
(`expect` / `unreachable!` in the source abort the program rather than
return an error; `panicked` makes that third outcome explicit). -/
inductive Outcome (ε : Type) (α : Type) where
  | ok (a : α) : Outcome ε α
  | err (e : ε) : Outcome ε α
  | panicked (msg : String) : Outcome ε α
deriving DecidableEq

/-- The `AuthSessionConfig` struct from src/auth.rs. -/
structure AuthSessionConfig where
  handshake_token : String
  hash_fn : HashFunction
deriving DecidableEq

/-- The `ServerFirstResponse` struct from src/auth.rs. -/
structure ServerFirstResponse where
  server_first_msg : String
  server_iterations : Nat
  server_nonce : String
  server_salt : String
deriving DecidableEq

/-- The `ServerSecondResponse` struct from src/auth.rs. -/
structure ServerSecondResponse where
  auth_token : String
  server_signature : String
deriving DecidableEq

/-- Embeds `auth_session_config` from src/auth.rs.  The first component
is the `Authorization` header value of the round-1 request the function
sends; the second is the parsed result. -/
def auth_session_config (username : String) (res : HttpResponse) :
    String × Except InternalAuthError AuthSessionConfig :=
  let base64_username := base64_encode_no_padding (strBytes username)
  let auth_header_value := "HELLO username=" ++ base64_username
  (auth_header_value,
    match parse_key_value_pairs_from_header "www-authenticate" res with
    | .error e => .error (internalOfKvp e)
    | .ok kvps =>
      match kvps.get "handshakeToken" with
      | .error e => .error (internalOfKvp e)
      | .ok handshake_token =>
        match kvps.get "hash" with
        | .error e => .error (internalOfKvp e)
        | .ok hash_str =>
          match HashFunction.from_str hash_str with
          | .error e => .error (.handshake (.parseHashFunction e.unparsable_hash))
          | .ok hash_fn => .ok ⟨handshake_token, hash_fn⟩)

/-- Embeds `server_first_response` from src/auth.rs.  The first
component is the `Authorization` header value of the round-2 request. -/
def server_first_response (handshake_token client_first_msg : String)
    (res : HttpResponse) :
    String × Except InternalAuthError ServerFirstResponse :=
  let auth_header_value := "SCRAM handshakeToken=" ++ handshake_token ++
    ", data=" ++ base64_encode_no_padding (strBytes client_first_msg)
  (auth_header_value,
    match parse_key_value_pairs_from_header "www-authenticate" res with
    | .error e => .error (internalOfKvp e)
    | .ok kvps =>
      match kvps.get "data" with
      | .error e => .error (internalOfKvp e)
      | .ok data_base64 =>
        match base64_decode_no_padding data_base64 with
        | .error e => .error (.handshake (.base64Decode e.msg))
        | .ok data =>
          let server_first_msg := data
          match parse_key_value_pairs data with
          | .error e => .error (internalOfKvp e)
          | .ok data_kvps =>
            match data_kvps.get "r" with
            | .error e => .error (internalOfKvp e)
            | .ok server_nonce =>
              match data_kvps.get "s" with
              | .error e => .error (internalOfKvp e)
              | .ok server_salt =>
                match data_kvps.get "i" with
                | .error e => .error (internalOfKvp e)
                | .ok iterations_str =>
                  match parseU32 iterations_str with
                  | none => .error (.handshake .parseIterations)
                  | some server_iterations =>
                      .ok ⟨server_first_msg, server_iterations,
                           server_nonce, server_salt⟩)

/-- The client proof computed in `server_second_response`
(src/auth.rs lines 261-272): the byte-wise XOR of the client key and the
client signature. -/
def client_proof_bytes (crypto : CryptoPrimitives) (hash_fn : HashFunction)
    (salted_password : List Nat) (auth_msg : String) : List Nat :=
  let client_key := crypto.hmacSign hash_fn salted_password (strBytes "Client Key")
  let stored_key := crypto.digest hash_fn client_key
  let client_signature := crypto.hmacSign hash_fn stored_key (strBytes auth_msg)
  (client_key.zip client_signature).map (fun p => Nat.xor p.1 p.2)

/-- Embeds `server_second_response` from src/auth.rs.  The first
component is the `Authorization` header value of the round-3 request
(which carries the client-final message with the proof). -/
def server_second_response (crypto : CryptoPrimitives)
    (handshake_token auth_msg : String) (salted_password : List Nat)
    (client_final_no_proof : String) (hash_fn : HashFunction)
    (res : HttpResponse) :
    String × Except InternalAuthError ServerSecondResponse :=
  let client_proof := client_proof_bytes crypto hash_fn salted_password auth_msg
  let client_final := client_final_no_proof ++ ",p=" ++
    base64_encode_no_padding client_proof
  let auth_header_value := "SCRAM handshakeToken=" ++ handshake_token ++
    ", data=" ++ base64_encode_no_padding (strBytes client_final)
  (auth_header_value,
    match parse_key_value_pairs_from_header "authentication-info" res with
    | .error e => .error (internalOfKvp e)
    | .ok auth_info =>
      match auth_info.get "authToken" with
      | .error e => .error (internalOfKvp e)
      | .ok auth_token =>
        match auth_info.get "data" with
        | .error e => .error (internalOfKvp e)
        | .ok data_base64 =>
          match base64_decode_no_padding data_base64 with
          | .error e => .error (.handshake (.base64Decode e.msg))
          | .ok data =>
            match parse_key_value_pairs data with
            | .error e => .error (internalOfKvp e)
            | .ok kvps =>
              match kvps.get "v" with
              | .error e => .error (internalOfKvp e)
              | .ok server_signature => .ok ⟨auth_token, server_signature⟩)

/-- Embeds `is_server_valid` from src/auth.rs: recompute the server
signature from the salted password and the auth message, encode it with
`base64::encode` (the padded standard config), and compare it for string
equality with the received `v` value. -/
def is_server_valid (crypto : CryptoPrimitives) (auth_msg : String)
    (salted_password : List Nat) (server_signature : String)
    (hash_fn : HashFunction) : Bool :=
  let computed_server_key :=
    crypto.hmacSign hash_fn salted_password (strBytes "Server Key")
  let computed_server_signature :=
    crypto.hmacSign hash_fn computed_server_key (strBytes auth_msg)
  base64_encode computed_server_signature == server_signature

/-- Embeds `new_auth_token` from src/auth.rs, the three-round SCRAM
handshake.  Parameters stand for the environment: the crypto primitives,
the 32 random bytes the rng produces for the nonce, and the three HTTP
responses the server returns (all three requests are GETs to `url`).
The second component of the result lists the `Authorization` header
values of the requests actually sent, in order.  The
`NonZeroU32::new(..).expect(..)` on the iteration count is modelled by
the `panicked` outcome. -/
def new_auth_token (crypto : CryptoPrimitives) (url username password : String)
    (rngBytes : List Nat) (resp1 resp2 resp3 : HttpResponse) :
    Outcome InternalAuthError String × List String :=
  match auth_session_config username resp1 with
  | (req1, .error e) => (.err e, [req1])
  | (req1, .ok cfg) =>
    let nonce := generate_nonce rngBytes
    let client_first_msg := "n=" ++ username ++ ",r=" ++ nonce
    match server_first_response cfg.handshake_token client_first_msg resp2 with
    | (req2, .error e) => (.err e, [req1, req2])
    | (req2, .ok sfr) =>
      if sfr.server_iterations = 0 then
        (.panicked "should never receive iterations = 0 from the server",
         [req1, req2])
      else
        match base64Decode sfr.server_salt with
        | none =>
            (.err (.handshake (.base64Decode "could not decode a base64 string")),
             [req1, req2])
        | some decoded_server_salt =>
          let salted_password := crypto.pbkdf2 cfg.hash_fn (strBytes password)
            decoded_server_salt sfr.server_iterations
          let client_final_no_proof := "c=biws,r=" ++ sfr.server_nonce
          let auth_msg := client_first_msg ++ "," ++ sfr.server_first_msg ++
            "," ++ client_final_no_proof
          match server_second_response crypto cfg.handshake_token auth_msg
              salted_password client_final_no_proof cfg.hash_fn resp3 with
          | (req3, .error e) => (.err e, [req1, req2, req3])
          | (req3, .ok ssr) =>
            if is_server_valid crypto auth_msg salted_password
                ssr.server_signature cfg.hash_fn then
              (.ok ssr.auth_token, [req1, req2, req3])
            else
              (.err (.serverValidation url), [req1, req2, req3])

/-- Error type `ParseJsonGridError` from src/grid.rs. -/
structure ParseJsonGridError where
  msg : String

/-- The `Grid` struct from src/grid.rs: a wrapper around a JSON value. -/
structure Grid where
  json : Json

/-- The `MARKER_LITERAL` constant from src/grid.rs. -/
def MARKER_LITERAL : String := "m:"

/-- Embeds `TryFrom<Value> for Grid` from src/grid.rs: `meta` must be an
object, `cols` and `rows` must be arrays of objects. -/
def Grid.tryFrom (value : Json) : Except ParseJsonGridError Grid :=
  if ¬ (value.getField "meta").isObject then
    .error ⟨"Could not find a JSON object for 'meta'"⟩
  else
    match (value.getField "cols").asArray with
    | none => .error ⟨"Could not find a JSON array for 'cols'"⟩
    | some cols =>
      match (value.getField "rows").asArray with
      | none => .error ⟨"Could not find a JSON array for 'rows'"⟩
      | some rows =>
        match cols.find? (fun col => ¬ col.isObject) with
        | some col =>
            .error ⟨"Expected a JSON object for col but found " ++ jsonRender col⟩
        | none =>
          match rows.find? (fun row => ¬ row.isObject) with
          | some row =>
              .error ⟨"Expected a JSON object for row but found " ++ jsonRender row⟩
          | none => .ok ⟨value⟩

/-- Embeds `Grid::meta` from src/grid.rs: the `meta` object of the
underlying JSON.  The source `expect`s the object; grids built by
`Grid::tryFrom` always satisfy it, and the default is the empty map. -/
def Grid.meta (g : Grid) : List (String × Json) :=
  match (g.json.getField "meta").asObject with
  | some fields => fields
  | none => []

/-- Embeds `Grid::is_error` from src/grid.rs: true exactly when the
grid's metadata holds an `err` key whose value is the string `m:`. -/
def Grid.is_error (g : Grid) : Bool :=
  match g.meta.find? (fun p => p.1 == "err") with
  | some p =>
      match p.2.asStr with
      | some err_str => err_str == MARKER_LITERAL
      | none => false
  | none => false

/-- The crate-level `Error` enum used by src/lib.rs.  The err.rs file in
this snapshot of the repository is an older revision; the enum's
variants are reconstructed from their construction and matching sites
inside src/lib.rs (`Error::Grid`, `Error::TimeZone`) and the exhaustive
`From<crate::Error> for EvalError` match in src/eval.rs (`Grid`, `Http`,
`ParseJsonGrid`, `TimeZone`, `UpdateAuthToken`).  `Http` carries a
`reqwest::Error` in the source; a message stands in for it. -/
inductive Error where
  | grid (err_grid : Grid) : Error
  | http (msg : String) : Error
  | parseJsonGrid (e : ParseJsonGridError) : Error
  | timeZone (err_time_zone : String) : Error
  | updateAuthToken (e : AuthError) : Error

/-- Embeds `http_response_to_grid` from src/lib.rs: parse the body as
JSON (a `reqwest` error when the body is not JSON), convert it to a
`Grid`, and surface an error grid as `Error::Grid` carrying the grid. -/
def http_response_to_grid (res : HttpResponse) : Except Error Grid :=
  match res.body with
  | none => .error (.http "error decoding response body as JSON")
  | some json =>
    match Grid.tryFrom json with
    | .error e => .error (.parseJsonGrid e)
    | .ok grid =>
      if grid.is_error then .error (.grid grid) else .ok grid

/-- A parsed URL, modelling the parts of `url::Url` the library reads:
the scheme-plus-authority prefix of the serialization, the
`cannot_be_a_base` flag, and the path segments.  For a base URL the
serialization is the prefix, a `/`, and the `/`-separated segments
(queries and fragments are not modelled; no claim involves them); for a
cannot-be-a-base URL the serialization is the prefix alone and the
segments are meaningless.  A parsed base URL always has at least one
segment (its path always starts with `/`). -/
structure Url where
  host_part : String
  cannot_be_a_base : Bool
  segments : List String
deriving DecidableEq

/-- Joins path segments with `/` separators. -/
def joinSegments : List String → String
  | [] => ""
  | [s] => s
  | s :: rest => s ++ "/" ++ joinSegments rest

/-- Models `Url::as_str` / `Url::to_string` over the model above. -/
def Url.as_str (u : Url) : String :=
  if u.cannot_be_a_base then u.host_part
  else u.host_part ++ "/" ++ joinSegments u.segments

/-- Models `Url::path_segments`: `none` exactly for cannot-be-a-base
URLs. -/
def Url.path_segments (u : Url) : Option (List String) :=
  if u.cannot_be_a_base then none else some u.segments

/-- Models re-parsing the serialization with `/` appended
(`Url::parse(&(url.to_string() + "/"))` in src/lib.rs): for a base URL
the new trailing `/` adds one empty path segment; for a
cannot-be-a-base URL it extends the opaque part. -/
def url_append_slash (u : Url) : Url :=
  if u.cannot_be_a_base then { u with host_part := u.host_part ++ "/" }
  else { u with segments := u.segments ++ [""] }

/-- Embeds `add_backslash_if_necessary` from src/lib.rs: if the last
character of the serialization is not `/`, parse the serialization with
`/` appended; otherwise return the URL unchanged.  (The source `expect`s
a nonempty serialization; parsed URLs always have one.) -/
def add_backslash_if_necessary (url : Url) : Url :=
  if url.as_str.data.getLast? = some '/' then url else url_append_slash url

/-- Embeds `has_valid_path_segments` from src/lib.rs: the first segment
must be `api`, the second a non-empty project name, the third the empty
segment a trailing `/` produces, and there must be no fourth. -/
def has_valid_path_segments (project_api_url : Url) : Bool :=
  match project_api_url.path_segments with
  | some segments =>
    let api_literal := segments.get? 0
    let proj_name := segments.get? 1
    let blank := segments.get? 2
    let should_be_none := segments.get? 3
    if proj_name == some "" then false
    else
      api_literal == some "api" && proj_name.isSome &&
        blank == some "" && should_be_none == none
  | none => false

/-- Models `url.set_path("/ui")` from `new_auth_token` in src/lib.rs:
replace the path segments with the single segment `ui` (a no-op on a
cannot-be-a-base URL, as in the url crate). -/
def Url.set_path_ui (u : Url) : Url :=
  if u.cannot_be_a_base then u else { u with segments := ["ui"] }

/-- The `SkySparkClient` struct from src/lib.rs (the `reqwest::Client`
handle is the transport oracle and carries no state of its own). -/
structure SkySparkClient where
  auth_token : String
  username : String
  password : String
  project_api_url : Url

/-- The environment one authentication handshake runs in: the 32 random
bytes the rng produces for the nonce, and the three responses the
server returns to the three handshake requests. -/
structure AuthEnv where
  rngBytes : List Nat
  resp1 : HttpResponse
  resp2 : HttpResponse
  resp3 : HttpResponse

/-- Embeds the crate-level `new_auth_token` wrapper from src/lib.rs
lines 69-87: clone the project URL, set its path to `/ui`, run the
handshake against that URL, and convert the internal error to the
public `AuthError`. -/
def new_auth_token_lib (crypto : CryptoPrimitives) (project_api_url : Url)
    (username password : String) (env : AuthEnv) : Outcome AuthError String :=
  let auth_url := project_api_url.set_path_ui
  match (new_auth_token crypto auth_url.as_str username password
      env.rngBytes env.resp1 env.resp2 env.resp3).1 with
  | .ok token => .ok token
  | .err e => .err (authErrorOfInternal e)
  | .panicked msg => .panicked msg

/-- Embeds `SkySparkClient::update_auth_token` from src/lib.rs lines
193-205: run a full handshake; only on success assign the new token to
the `auth_token` field (the `?` returns before the assignment on
error). -/
def SkySparkClient.update_auth_token (st : SkySparkClient)
    (crypto : CryptoPrimitives) (env : AuthEnv) :
    Outcome AuthError Unit × SkySparkClient :=
  match new_auth_token_lib crypto st.project_api_url st.username st.password env with
  | .ok auth_token => (.ok (), { st with auth_token := auth_token })
  | .err e => (.err e, st)
  | .panicked msg => (.panicked msg, st)

/-- Embeds `SkySparkClient::auth_header_value` from src/lib.rs. -/
def SkySparkClient.auth_header_value (st : SkySparkClient) : String :=
  "BEARER authToken=" ++ st.auth_token

/-- One outward-visible action of the session layer: an HTTP GET or
POST (recording the URL, the request grid for POSTs, and the
`Authorization` header value sent), or a full re-authentication
handshake. -/
inductive Event where
  | getRequest (url : Url) (authHeader : String) : Event
  | postRequest (url : Url) (body : Grid) (authHeader : String) : Event
  | reauthenticate : Event

/-- The environment of one guarded request: the response to the first
attempt, the environment of the re-authentication handshake run on a
Forbidden response, and the response to the retried request. -/
structure RequestEnv where
  firstResponse : HttpResponse
  authEnv : AuthEnv
  retryResponse : HttpResponse

/-- Converts the `Except` of the response-to-grid conversion into an
`Outcome`. -/
def outcomeOfExcept {ε α : Type} : Except ε α → Outcome ε α
  | .ok a => .ok a
  | .error e => .err e

/-- The `reqwest::StatusCode::FORBIDDEN` constant. -/
def FORBIDDEN : Nat := 403

/-- Embeds `SkySparkClient::get` from src/lib.rs lines 219-229: send the
request with the current token; on a Forbidden status run exactly one
re-authentication and re-send the same request once with the new token,
returning the converted retry response whatever it is; on any other
status convert the first response directly.  The result also carries
the updated client state and the list of outward-visible events. -/
def SkySparkClient.get (st : SkySparkClient) (crypto : CryptoPrimitives)
    (url : Url) (env : RequestEnv) :
    Outcome Error Grid × SkySparkClient × List Event :=
  let res := env.firstResponse
  let ev1 := Event.getRequest url st.auth_header_value
  if res.status = FORBIDDEN then
    match st.update_auth_token crypto env.authEnv with
    | (.ok _, st1) =>
        (outcomeOfExcept (http_response_to_grid env.retryResponse), st1,
         [ev1, .reauthenticate, .getRequest url st1.auth_header_value])
    | (.err e, st1) =>
        (.err (.updateAuthToken e), st1, [ev1, .reauthenticate])
    | (.panicked msg, st1) => (.panicked msg, st1, [ev1, .reauthenticate])
  else
    (outcomeOfExcept (http_response_to_grid res), st, [ev1])

/-- Embeds `SkySparkClient::post` from src/lib.rs lines 241-251: the
same retry policy as `get`, re-sending the same URL and the same
request grid. -/
def SkySparkClient.post (st : SkySparkClient) (crypto : CryptoPrimitives)
    (url : Url) (grid : Grid) (env : RequestEnv) :
    Outcome Error Grid × SkySparkClient × List Event :=
  let res := env.firstResponse
  let ev1 := Event.postRequest url grid st.auth_header_value
  if res.status = FORBIDDEN then
    match st.update_auth_token crypto env.authEnv with
    | (.ok _, st1) =>
        (outcomeOfExcept (http_response_to_grid env.retryResponse), st1,
         [ev1, .reauthenticate, .postRequest url grid st1.auth_header_value])
    | (.err e, st1) =>
        (.err (.updateAuthToken e), st1, [ev1, .reauthenticate])
    | (.panicked msg, st1) => (.panicked msg, st1, [ev1, .reauthenticate])
  else
    (outcomeOfExcept (http_response_to_grid res), st, [ev1])

/-- The `NewSkySparkClientError` type returned by the constructor.  Its
definition lives in the newer err.rs revision not present in this
snapshot; its shape is reconstructed from its construction sites in
src/lib.rs and src/blocking.rs (`NewSkySparkClientError::url(msg)`) and
the `?` conversion applied to the handshake's `AuthError`. -/
inductive NewSkySparkClientError where
  | url (msg : String) : NewSkySparkClientError
  | auth (e : AuthError) : NewSkySparkClientError
deriving DecidableEq

/-- Embeds `SkySparkClient::new_with_client` from src/lib.rs lines
150-181: append a trailing `/` to the project URL if absent, reject a
URL that cannot be a base or whose path segments are not
`api/<project>/`, and only then run the authentication handshake and
build the client. -/
def SkySparkClient.new_with_client (crypto : CryptoPrimitives)
    (project_api_url : Url) (username password : String) (env : AuthEnv) :
    Outcome NewSkySparkClientError SkySparkClient :=
  let project_api_url := add_backslash_if_necessary project_api_url
  if project_api_url.cannot_be_a_base then
    .err (.url "the project API URL must be a valid base URL")
  else if ¬ has_valid_path_segments project_api_url then
    .err (.url "URL must be formatted similarly to http://www.test.com/api/project/")
  else
    match new_auth_token_lib crypto project_api_url username password env with
    | .ok auth_token => .ok ⟨auth_token, username, password, project_api_url⟩
    | .err e => .err (.auth e)
    | .panicked msg => .panicked msg

/-- A concrete instance of the crypto primitives used to witness the
theorems on small inputs: every primitive returns the all-zero string of
the documented output length. -/
def trivialCrypto : CryptoPrimitives where
  hmacSign := fun hf _ _ => List.replicate hf.dk_len 0
  digest := fun hf _ => List.replicate hf.dk_len 0
  pbkdf2 := fun hf _ _ _ => List.replicate hf.dk_len 0
  hmac_length := fun _ _ _ => List.length_replicate _ _
  digest_length := fun _ _ => List.length_replicate _ _

/-! Concrete inputs used to evaluate the embedding in the witness
theorems below: a server that follows the protocol, with the trivial
crypto primitives. -/

/-- A round-1 response selecting SHA-256 with handshake token `abc`. -/
def resp1c : HttpResponse :=
  ⟨200, [("www-authenticate", some "SCRAM handshakeToken=abc, hash=SHA-256")], none⟩

/-- A round-2 response carrying server nonce `xyz`, the salt `salt`
(base64 `c2FsdA`), and one iteration. -/
def resp2c : HttpResponse :=
  ⟨200, [("www-authenticate",
    some ("data=" ++ base64_encode_no_padding (strBytes "r=xyz,s=c2FsdA,i=1")))], none⟩

/-- A round-2 response like `resp2c` but announcing zero iterations. -/
def resp2zero : HttpResponse :=
  ⟨200, [("www-authenticate",
    some ("data=" ++ base64_encode_no_padding (strBytes "r=xyz,s=c2FsdA,i=0")))], none⟩

/-- A round-3 response issuing token `tok123` with the `v` value the
trivial crypto primitives make the client expect (the padded base64 of
thirty-two zero bytes). -/
def resp3good : HttpResponse :=
  ⟨200, [("authentication-info",
    some ("authToken=tok123, data=" ++ base64_encode_no_padding
      (strBytes ("v=" ++ base64_encode (List.replicate 32 0)))))], none⟩

/-- A round-3 response issuing token `tok123` with a `v` value that does
not match the recomputed server signature. -/
def resp3bad : HttpResponse :=
  ⟨200, [("authentication-info",
    some ("authToken=tok123, data=" ++ base64_encode_no_padding
      (strBytes "v=bogus")))], none⟩

/-- A response with no headers at all. -/
def respEmptyHeaders : HttpResponse := ⟨200, [], none⟩

/-- An authentication environment in which the handshake succeeds and
yields `tok123`. -/
def authEnvGood : AuthEnv := ⟨List.replicate 32 0, resp1c, resp2c, resp3good⟩

/-- An authentication environment in which the handshake fails in
round 1 (missing `www-authenticate` header). -/
def authEnvBad : AuthEnv :=
  ⟨List.replicate 32 0, respEmptyHeaders, respEmptyHeaders, respEmptyHeaders⟩

/-- A valid project API URL, `http://www.test.com/api/proj/`. -/
def urlC : Url := ⟨"http://www.test.com", false, ["api", "proj", ""]⟩

/-- A client holding the token `old`. -/
def stC : SkySparkClient := ⟨"old", "name", "p4ssw0rd", urlC⟩

/-- The JSON of a well-formed, non-error grid. -/
def gridJsonC : Json :=
  .obj [("meta", .obj []), ("cols", .arr []), ("rows", .arr [])]

/-- The JSON of a well-formed error grid (`meta.err` set to the marker). -/
def errGridJsonC : Json :=
  .obj [("meta", .obj [("err", .str "m:"), ("dis", .str "boom")]),
        ("cols", .arr []), ("rows", .arr [])]

/-- A project URL without the trailing slash,
`http://www.test.com/api/proj`. -/
def urlNoSlash : Url := ⟨"http://www.test.com", false, ["api", "proj"]⟩

/-- A request environment whose first and retry responses are both
Forbidden, the retry carrying a body that parses as a well-formed
non-error grid. -/
def envDoubleForbidden : RequestEnv :=
  ⟨⟨403, [], none⟩, authEnvGood, ⟨403, [], some gridJsonC⟩⟩

/-! Helper lemmas shared by the claim theorems. -/

/-- Two strings with the same character data are equal. -/
theorem stringDataEq {a b : String} (h : a.data = b.data) : a = b := by
  cases a; cases b; cases h; rfl

/-- The data of an appended string is the appended data. -/
theorem stringDataAppend (a b : String) : (a ++ b).data = a.data ++ b.data := rfl

/-- Every character the base64 table produces lies in the standard
alphabet (out-of-range indices fall back to `A`, also in the alphabet). -/
theorem b64Char_mem (n : Nat) : b64Char n ∈ base64StdAlphabet := by
  unfold b64Char List.getD
  rcases h : base64StdAlphabet.get? n with _ | c
  · decide
  · simpa using List.get?_mem h

/-- Every character of the unpadded base64 data stream lies in the
standard alphabet. -/
theorem encodeCore_mem : ∀ (bytes : List Nat), ∀ c ∈ base64EncodeCore bytes, c ∈ base64StdAlphabet
  | [] => by simp [base64EncodeCore]
  | [a] => by
      intro c hc
      simp only [base64EncodeCore, List.mem_cons, List.not_mem_nil, or_false] at hc
      rcases hc with rfl | rfl <;> exact b64Char_mem _
  | [a, b] => by
      intro c hc
      simp only [base64EncodeCore, List.mem_cons, List.not_mem_nil, or_false] at hc
      rcases hc with rfl | rfl | rfl <;> exact b64Char_mem _
  | a :: b :: x :: rest => by
      intro c hc
      simp only [base64EncodeCore, List.mem_cons] at hc
      rcases hc with rfl | rfl | rfl | rfl | h
      · exact b64Char_mem _
      · exact b64Char_mem _
      · exact b64Char_mem _
      · exact b64Char_mem _
      · exact encodeCore_mem rest c h

/-- The padded base64 encoding of a byte string whose length is not a
multiple of three contains a padding character. -/
theorem base64_encode_padded (bytes : List Nat) (h : bytes.length % 3 ≠ 0) :
    '=' ∈ (base64_encode bytes).data := by
  unfold base64_encode
  have h3 : bytes.length % 3 = 1 ∨ bytes.length % 3 = 2 := by omega
  rcases h3 with h3 | h3 <;> simp [h3]

/-- A fragment without `=` makes `parse_one_pair` fail. -/
theorem parse_one_pair_no_eq (t : String) (h : '=' ∉ t.data) :
    parse_one_pair t = .error ⟨"No '=' symbol in key-value pair " ++ t⟩ := by
  have hrest : t.data.dropWhile (fun c => c ≠ '=') = [] := by
    rw [List.dropWhile_eq_nil_iff]
    intro x hx
    simp only [ne_eq, decide_not, Bool.not_eq_true', decide_eq_false_iff_not]
    intro hxe
    exact h (hxe ▸ hx)
  simp only [parse_one_pair, hrest]

/-- If any mapped element fails, the collected result fails. -/
theorem collectResults_error {ε α : Type} (f : String → Except ε α) :
    ∀ (l : List String) (t : String), t ∈ l → (∃ e, f t = .error e) →
    ∃ e, collectResults (l.map f) = .error e := by
  intro l
  induction l with
  | nil => intro t ht; cases ht
  | cons x xs ih =>
    intro t ht hfe
    rcases List.mem_cons.mp ht with rfl | hmem
    · obtain ⟨e, he⟩ := hfe
      refine ⟨e, ?_⟩
      simp only [List.map_cons, collectResults, he]
      rfl
    · obtain ⟨e, he⟩ := ih t hmem hfe
      rcases hx : f x with ex | a
      · refine ⟨ex, ?_⟩
        simp only [List.map_cons, collectResults, hx]
        rfl
      · refine ⟨e, ?_⟩
        simp only [List.map_cons, collectResults, hx, he]
        rfl

/-- C3 counterexample: the recomputed server signature compared against
the received `v` value is encoded with padding.  With the trivial
primitives the computed signature is thirty-two zero bytes; its
unpadded standard-alphabet encoding is rejected by `is_server_valid`,
while the padded encoding — which contains a `=` padding character — is
accepted. -/
theorem raystack_c3_counterexample :
    is_server_valid trivialCrypto "" []
      (base64_encode_no_padding (List.replicate 32 0)) .sha256 = false
    ∧ is_server_valid trivialCrypto "" []
      (base64_encode (List.replicate 32 0)) .sha256 = true
    ∧ '=' ∈ (base64_encode (List.replicate 32 0)).data := by
  refine ⟨by decide, by decide, by decide⟩

/-- C3 (amended): every base64 encoding of data the Authenticator sends
(username, client-first message, client proof, client-final message)
uses `base64_encode_no_padding`, whose output stays inside the standard
alphabet and never contains a padding character; the recomputed server
signature compared against the received `v` value is instead encoded
with the padded standard config, so any `v` accepted by
`is_server_valid` contains a `=` padding character. -/
theorem raystack_c3 :
    (∀ (bytes : List Nat) (c : Char),
      c ∈ (base64_encode_no_padding bytes).data → c ∈ base64StdAlphabet)
    ∧ (∀ bytes : List Nat, '=' ∉ (base64_encode_no_padding bytes).data)
    ∧ (∀ (crypto : CryptoPrimitives) (auth_msg : String)
        (salted_password : List Nat) (server_signature : String)
        (hash_fn : HashFunction),
        is_server_valid crypto auth_msg salted_password server_signature hash_fn
          = true →
        '=' ∈ server_signature.data) := by
  refine ⟨?_, ?_, ?_⟩
  · intro bytes c hc
    exact encodeCore_mem bytes c hc
  · intro bytes hmem
    have : ('=' : Char) ∈ base64StdAlphabet := encodeCore_mem bytes '=' hmem
    revert this
    decide
  · intro crypto auth_msg salted_password server_signature hash_fn hv
    unfold is_server_valid at hv
    have heq : base64_encode
        (crypto.hmacSign hash_fn
          (crypto.hmacSign hash_fn salted_password (strBytes "Server Key"))
          (strBytes auth_msg)) = server_signature := by
      exact eq_of_beq hv
    rw [← heq]
    apply base64_encode_padded
    rw [crypto.hmac_length]
    cases hash_fn <;> decide

/-- C3 witness: an accepted `v` value containing a padding character,
obtained from the amended theorem at a concrete validated response. -/
theorem raystack_c3_witness :
    '=' ∈ (base64_encode (List.replicate 32 0)).data :=
  raystack_c3.2.2 trivialCrypto "" [] (base64_encode (List.replicate 32 0))
    .sha256 (by decide)

/-- C5: the key-value blob is split on space and comma, fragments
without `=` make the whole parse fail, the sample `r=abc,s=def,i=4096`
parses to the three expected pairs, the sample `garbage` is a parse
error, and a literal `SCRAM` token is ignored rather than parsed. -/
theorem raystack_c5 :
    (∀ s t, t ∈ splitFragments s → '=' ∉ t.data →
      ∃ e, parse_key_value_pairs s = .error e)
    ∧ parse_key_value_pairs "r=abc,s=def,i=4096" =
        .ok ⟨[("r", "abc"), ("s", "def"), ("i", "4096")]⟩
    ∧ parse_key_value_pairs "garbage" =
        .error ⟨"No '=' symbol in key-value pair garbage"⟩
    ∧ parse_key_value_pairs "SCRAM r=abc" = .ok ⟨[("r", "abc")]⟩ := by
  refine ⟨?_, by decide, by decide, by decide⟩
  intro s t ht hno
  obtain ⟨e, he⟩ := collectResults_error parse_one_pair (splitFragments s) t ht
    ⟨_, parse_one_pair_no_eq t hno⟩
  exact ⟨e, by simp only [parse_key_value_pairs, he]⟩

/-- C5 witness: the general no-`=` clause applied at the concrete input
`garbage`. -/
theorem raystack_c5_witness :
    ∃ e, parse_key_value_pairs "garbage" = .error e :=
  raystack_c5.1 "garbage" "garbage" (by decide) (by decide)

/-- Both XOR operands of the client proof — the client key and the
client signature — have the hash function's output length, and so does
the proof itself: no byte is dropped by the zip. -/
theorem client_proof_operand_lengths (crypto : CryptoPrimitives)
    (hash_fn : HashFunction) (salted_password : List Nat) (auth_msg : String) :
    (crypto.hmacSign hash_fn salted_password (strBytes "Client Key")).length
      = hash_fn.dk_len
    ∧ (crypto.hmacSign hash_fn
        (crypto.digest hash_fn
          (crypto.hmacSign hash_fn salted_password (strBytes "Client Key")))
        (strBytes auth_msg)).length = hash_fn.dk_len
    ∧ (client_proof_bytes crypto hash_fn salted_password auth_msg).length
      = hash_fn.dk_len := by
  refine ⟨crypto.hmac_length _ _ _, crypto.hmac_length _ _ _, ?_⟩
  unfold client_proof_bytes
  rw [List.length_map, List.length_zip, crypto.hmac_length, crypto.hmac_length,
    Nat.min_self]

/-- Decomposition of a handshake run that reaches round 3: once the
round-1 configuration parses, the round-2 response parses with a
non-zero iteration count, and the salt decodes, `new_auth_token` is the
round-3 exchange over the auth message built from the client-first
message, the server-first message and the client-final-no-proof
fragment. -/
theorem new_auth_token_stage3 (crypto : CryptoPrimitives)
    (url username password : String) (rngBytes : List Nat)
    (resp1 resp2 resp3 : HttpResponse) (req1 req2 : String)
    (cfg : AuthSessionConfig) (sfr : ServerFirstResponse) (salt : List Nat)
    (h1 : auth_session_config username resp1 = (req1, .ok cfg))
    (h2 : server_first_response cfg.handshake_token
      ("n=" ++ username ++ ",r=" ++ generate_nonce rngBytes) resp2
      = (req2, .ok sfr))
    (h3 : sfr.server_iterations ≠ 0)
    (h4 : base64Decode sfr.server_salt = some salt) :
    new_auth_token crypto url username password rngBytes resp1 resp2 resp3 =
      (match server_second_response crypto cfg.handshake_token
          (("n=" ++ username ++ ",r=" ++ generate_nonce rngBytes) ++ "," ++
            sfr.server_first_msg ++ "," ++ ("c=biws,r=" ++ sfr.server_nonce))
          (crypto.pbkdf2 cfg.hash_fn (strBytes password) salt
            sfr.server_iterations)
          ("c=biws,r=" ++ sfr.server_nonce) cfg.hash_fn resp3 with
       | (req3, .error e) => (.err e, [req1, req2, req3])
       | (req3, .ok ssr) =>
         if is_server_valid crypto
             (("n=" ++ username ++ ",r=" ++ generate_nonce rngBytes) ++ "," ++
               sfr.server_first_msg ++ "," ++ ("c=biws,r=" ++ sfr.server_nonce))
             (crypto.pbkdf2 cfg.hash_fn (strBytes password) salt
               sfr.server_iterations)
             ssr.server_signature cfg.hash_fn then
           (.ok ssr.auth_token, [req1, req2, req3])
         else
           (.err (.serverValidation url), [req1, req2, req3])) := by
  unfold new_auth_token
  rw [h1]
  simp only []
  rw [h2]
  simp only [h3, if_neg, h4]
  rfl

/-- C6: in round 3 the auth message is the concatenation of the
client-first message, the server-first message and the
client-final-no-proof fragment with comma separators — the round-3
request is computed by `server_second_response` over exactly that
string — and the two XOR operands forming the client proof (the client
key and the client signature) both have the hash function's output
length, as does the proof, so no bytes are dropped. -/
theorem raystack_c6 :
    (∀ (crypto : CryptoPrimitives) (hash_fn : HashFunction)
      (salted_password : List Nat) (auth_msg : String),
      (crypto.hmacSign hash_fn salted_password (strBytes "Client Key")).length
        = hash_fn.dk_len
      ∧ (crypto.hmacSign hash_fn
          (crypto.digest hash_fn
            (crypto.hmacSign hash_fn salted_password (strBytes "Client Key")))
          (strBytes auth_msg)).length = hash_fn.dk_len
      ∧ (client_proof_bytes crypto hash_fn salted_password auth_msg).length
        = hash_fn.dk_len)
    ∧ (∀ (crypto : CryptoPrimitives) (url username password : String)
        (rngBytes : List Nat) (resp1 resp2 resp3 : HttpResponse)
        (req1 req2 : String) (cfg : AuthSessionConfig)
        (sfr : ServerFirstResponse) (salt : List Nat),
        auth_session_config username resp1 = (req1, .ok cfg) →
        server_first_response cfg.handshake_token
          ("n=" ++ username ++ ",r=" ++ generate_nonce rngBytes) resp2
          = (req2, .ok sfr) →
        sfr.server_iterations ≠ 0 →
        base64Decode sfr.server_salt = some salt →
        (new_auth_token crypto url username password rngBytes
            resp1 resp2 resp3).2 =
          [req1, req2,
           (server_second_response crypto cfg.handshake_token
             (("n=" ++ username ++ ",r=" ++ generate_nonce rngBytes) ++ "," ++
               sfr.server_first_msg ++ "," ++
               ("c=biws,r=" ++ sfr.server_nonce))
             (crypto.pbkdf2 cfg.hash_fn (strBytes password) salt
               sfr.server_iterations)
             ("c=biws,r=" ++ sfr.server_nonce) cfg.hash_fn resp3).1]) := by
  constructor
  · intro crypto hash_fn salted_password auth_msg
    exact client_proof_operand_lengths crypto hash_fn salted_password auth_msg
  · intro crypto url username password rngBytes resp1 resp2 resp3 req1 req2
      cfg sfr salt h1 h2 h3 h4
    rw [new_auth_token_stage3 crypto url username password rngBytes
      resp1 resp2 resp3 req1 req2 cfg sfr salt h1 h2 h3 h4]
    rcases hs : server_second_response crypto cfg.handshake_token
        (("n=" ++ username ++ ",r=" ++ generate_nonce rngBytes) ++ "," ++
          sfr.server_first_msg ++ "," ++ ("c=biws,r=" ++ sfr.server_nonce))
        (crypto.pbkdf2 cfg.hash_fn (strBytes password) salt
          sfr.server_iterations)
        ("c=biws,r=" ++ sfr.server_nonce) cfg.hash_fn resp3 with ⟨req3, r3⟩
    rcases r3 with e | ssr
    · rfl
    · simp only []
      split <;> rfl

/-- C1: in a handshake run in which all three rounds complete and the
server returns an auth token, the token is returned exactly when the
independently recomputed server signature — the padded base64 of
HMAC(HMAC(salted_password, Server Key), auth_message) — equals the
received `v` value; on a mismatch the run fails with the
server-validation error and the received token is not returned. -/
theorem raystack_c1 (crypto : CryptoPrimitives)
    (url username password : String) (rngBytes : List Nat)
    (resp1 resp2 resp3 : HttpResponse) (req1 req2 req3 : String)
    (cfg : AuthSessionConfig) (sfr : ServerFirstResponse) (salt : List Nat)
    (ssr : ServerSecondResponse)
    (h1 : auth_session_config username resp1 = (req1, .ok cfg))
    (h2 : server_first_response cfg.handshake_token
      ("n=" ++ username ++ ",r=" ++ generate_nonce rngBytes) resp2
      = (req2, .ok sfr))
    (h3 : sfr.server_iterations ≠ 0)
    (h4 : base64Decode sfr.server_salt = some salt)
    (h5 : server_second_response crypto cfg.handshake_token
      (("n=" ++ username ++ ",r=" ++ generate_nonce rngBytes) ++ "," ++
        sfr.server_first_msg ++ "," ++ ("c=biws,r=" ++ sfr.server_nonce))
      (crypto.pbkdf2 cfg.hash_fn (strBytes password) salt
        sfr.server_iterations)
      ("c=biws,r=" ++ sfr.server_nonce) cfg.hash_fn resp3
      = (req3, .ok ssr)) :
    ((new_auth_token crypto url username password rngBytes
        resp1 resp2 resp3).1 = .ok ssr.auth_token ↔
      base64_encode (crypto.hmacSign cfg.hash_fn
        (crypto.hmacSign cfg.hash_fn
          (crypto.pbkdf2 cfg.hash_fn (strBytes password) salt
            sfr.server_iterations)
          (strBytes "Server Key"))
        (strBytes (("n=" ++ username ++ ",r=" ++ generate_nonce rngBytes) ++
          "," ++ sfr.server_first_msg ++ "," ++
          ("c=biws,r=" ++ sfr.server_nonce))))
        = ssr.server_signature)
    ∧ (base64_encode (crypto.hmacSign cfg.hash_fn
        (crypto.hmacSign cfg.hash_fn
          (crypto.pbkdf2 cfg.hash_fn (strBytes password) salt
            sfr.server_iterations)
          (strBytes "Server Key"))
        (strBytes (("n=" ++ username ++ ",r=" ++ generate_nonce rngBytes) ++
          "," ++ sfr.server_first_msg ++ "," ++
          ("c=biws,r=" ++ sfr.server_nonce))))
        ≠ ssr.server_signature →
      (new_auth_token crypto url username password rngBytes
        resp1 resp2 resp3).1 = .err (.serverValidation url)) := by
  rw [new_auth_token_stage3 crypto url username password rngBytes
    resp1 resp2 resp3 req1 req2 cfg sfr salt h1 h2 h3 h4, h5]
  simp only [is_server_valid]
  by_cases heq : base64_encode (crypto.hmacSign cfg.hash_fn
      (crypto.hmacSign cfg.hash_fn
        (crypto.pbkdf2 cfg.hash_fn (strBytes password) salt
          sfr.server_iterations)
        (strBytes "Server Key"))
      (strBytes (("n=" ++ username ++ ",r=" ++ generate_nonce rngBytes) ++
        "," ++ sfr.server_first_msg ++ "," ++
        ("c=biws,r=" ++ sfr.server_nonce))))
      = ssr.server_signature
  · simp [heq]
  · simp [heq]

/-- C4: once rounds 1 and 2 have parsed, an iteration count of zero
aborts the handshake (the `expect` panic on `NonZeroU32::new`) after
exactly two requests, with no round-3 request and no retry; the run
issues the third request only when the parsed iteration count is
positive. -/
theorem raystack_c4 (crypto : CryptoPrimitives)
    (url username password : String) (rngBytes : List Nat)
    (resp1 resp2 resp3 : HttpResponse) (req1 req2 : String)
    (cfg : AuthSessionConfig) (sfr : ServerFirstResponse)
    (h1 : auth_session_config username resp1 = (req1, .ok cfg))
    (h2 : server_first_response cfg.handshake_token
      ("n=" ++ username ++ ",r=" ++ generate_nonce rngBytes) resp2
      = (req2, .ok sfr)) :
    (sfr.server_iterations = 0 →
      new_auth_token crypto url username password rngBytes
        resp1 resp2 resp3 =
        (.panicked "should never receive iterations = 0 from the server",
         [req1, req2]))
    ∧ ((new_auth_token crypto url username password rngBytes
        resp1 resp2 resp3).2.length = 3 →
      0 < sfr.server_iterations) := by
  have hpanic : sfr.server_iterations = 0 →
      new_auth_token crypto url username password rngBytes
        resp1 resp2 resp3 =
        (.panicked "should never receive iterations = 0 from the server",
         [req1, req2]) := by
    intro h0
    unfold new_auth_token
    rw [h1]
    simp only []
    rw [h2]
    simp only [h0, if_pos]
  refine ⟨hpanic, ?_⟩
  intro hlen
  rcases Nat.eq_zero_or_pos sfr.server_iterations with h0 | hpos
  · rw [hpanic h0] at hlen
    simp at hlen
  · exact hpos

/-- C7: when the round-1 response has no `www-authenticate` header, the
handshake fails immediately with the missing-header parse error and
only the single round-1 request is ever sent: no round-2 or round-3
request is issued. -/
theorem raystack_c7 (crypto : CryptoPrimitives)
    (url username password : String) (rngBytes : List Nat)
    (resp1 resp2 resp3 : HttpResponse)
    (h : resp1.headers.find? (fun p => p.1 == "www-authenticate") = none) :
    new_auth_token crypto url username password rngBytes
      resp1 resp2 resp3 =
      (.err (.handshake
        (.keyValuePairParse "missing HTTP header www-authenticate")),
       ["HELLO username=" ++ base64_encode_no_padding (strBytes username)]) := by
  have h1 : auth_session_config username resp1 =
      ("HELLO username=" ++ base64_encode_no_padding (strBytes username),
       .error (.handshake
         (.keyValuePairParse "missing HTTP header www-authenticate"))) := by
    unfold auth_session_config parse_key_value_pairs_from_header
    rw [h]
    rfl
  unfold new_auth_token
  rw [h1]

/-- C1 witness: a complete concrete run in which the received `v` value
`bogus` differs from the recomputed signature, so the handshake returns
the server-validation error and not the issued token. -/
theorem raystack_c1_witness :
    (new_auth_token trivialCrypto "u" "name" "p4ssw0rd" (List.replicate 32 0)
      resp1c resp2c resp3bad).1 = .err (.serverValidation "u") :=
  (raystack_c1 trivialCrypto "u" "name" "p4ssw0rd" (List.replicate 32 0)
    resp1c resp2c resp3bad
    (auth_session_config "name" resp1c).1
    (server_first_response "abc"
      ("n=" ++ "name" ++ ",r=" ++ generate_nonce (List.replicate 32 0)) resp2c).1
    (server_second_response trivialCrypto "abc"
      (("n=" ++ "name" ++ ",r=" ++ generate_nonce (List.replicate 32 0)) ++ "," ++
        "r=xyz,s=c2FsdA,i=1" ++ "," ++ ("c=biws,r=" ++ "xyz"))
      (trivialCrypto.pbkdf2 .sha256 (strBytes "p4ssw0rd") (strBytes "salt") 1)
      ("c=biws,r=" ++ "xyz") .sha256 resp3bad).1
    ⟨"abc", .sha256⟩ ⟨"r=xyz,s=c2FsdA,i=1", 1, "xyz", "c2FsdA"⟩
    (strBytes "salt") ⟨"tok123", "bogus"⟩
    rfl rfl (by decide) (by decide) rfl).2 (by decide)

/-- C4 witness: a concrete run whose round-2 response announces zero
iterations; the handshake aborts with the panic after the two requests
already sent. -/
theorem raystack_c4_witness :
    new_auth_token trivialCrypto "u" "name" "p4ssw0rd" (List.replicate 32 0)
      resp1c resp2zero resp3good =
      (.panicked "should never receive iterations = 0 from the server",
       [(auth_session_config "name" resp1c).1,
        (server_first_response "abc"
          ("n=" ++ "name" ++ ",r=" ++ generate_nonce (List.replicate 32 0))
          resp2zero).1]) :=
  (raystack_c4 trivialCrypto "u" "name" "p4ssw0rd" (List.replicate 32 0)
    resp1c resp2zero resp3good
    (auth_session_config "name" resp1c).1
    (server_first_response "abc"
      ("n=" ++ "name" ++ ",r=" ++ generate_nonce (List.replicate 32 0))
      resp2zero).1
    ⟨"abc", .sha256⟩ ⟨"r=xyz,s=c2FsdA,i=0", 0, "xyz", "c2FsdA"⟩
    rfl rfl).1 rfl

/-- C6 witness: the complete concrete run's request trace, showing the
round-3 request computed over the concatenated auth message. -/
theorem raystack_c6_witness :
    (new_auth_token trivialCrypto "u" "name" "p4ssw0rd" (List.replicate 32 0)
      resp1c resp2c resp3good).2 =
      [(auth_session_config "name" resp1c).1,
       (server_first_response "abc"
         ("n=" ++ "name" ++ ",r=" ++ generate_nonce (List.replicate 32 0))
         resp2c).1,
       (server_second_response trivialCrypto "abc"
         (("n=" ++ "name" ++ ",r=" ++ generate_nonce (List.replicate 32 0)) ++
           "," ++ "r=xyz,s=c2FsdA,i=1" ++ "," ++ ("c=biws,r=" ++ "xyz"))
         (trivialCrypto.pbkdf2 .sha256 (strBytes "p4ssw0rd") (strBytes "salt") 1)
         ("c=biws,r=" ++ "xyz") .sha256 resp3good).1] :=
  raystack_c6.2 trivialCrypto "u" "name" "p4ssw0rd" (List.replicate 32 0)
    resp1c resp2c resp3good
    (auth_session_config "name" resp1c).1
    (server_first_response "abc"
      ("n=" ++ "name" ++ ",r=" ++ generate_nonce (List.replicate 32 0)) resp2c).1
    ⟨"abc", .sha256⟩ ⟨"r=xyz,s=c2FsdA,i=1", 1, "xyz", "c2FsdA"⟩
    (strBytes "salt") rfl rfl (by decide) (by decide)

/-- C7 witness: a concrete round-1 response with no headers fails the
handshake with the missing-header error after a single request. -/
theorem raystack_c7_witness :
    new_auth_token trivialCrypto "u" "name" "p4ssw0rd" (List.replicate 32 0)
      respEmptyHeaders respEmptyHeaders respEmptyHeaders =
      (.err (.handshake
        (.keyValuePairParse "missing HTTP header www-authenticate")),
       ["HELLO username=" ++ base64_encode_no_padding (strBytes "name")]) :=
  raystack_c7 trivialCrypto "u" "name" "p4ssw0rd" (List.replicate 32 0)
    respEmptyHeaders respEmptyHeaders respEmptyHeaders rfl

/-- C8: a response body that parses as a grid is surfaced as
`Error::Grid` carrying the parsed grid itself exactly when the grid's
`meta.err` marker is set, and as a plain success otherwise. -/
theorem raystack_c8 (res : HttpResponse) (json : Json) (grid : Grid)
    (hb : res.body = some json) (ht : Grid.tryFrom json = .ok grid) :
    (grid.is_error = true →
      http_response_to_grid res = .error (.grid grid))
    ∧ (grid.is_error = false → http_response_to_grid res = .ok grid) := by
  constructor <;> intro hi <;> simp [http_response_to_grid, hb, ht, hi]

/-- C8 witness: a concrete error grid (meta.err set to the marker) is
surfaced as the error carrying that grid. -/
theorem raystack_c8_witness :
    http_response_to_grid ⟨200, [], some errGridJsonC⟩ =
      .error (.grid ⟨errGridJsonC⟩) :=
  (raystack_c8 ⟨200, [], some errGridJsonC⟩ errGridJsonC ⟨errGridJsonC⟩
    rfl rfl).1 rfl

/-- C9: the token-refresh operation replaces the stored token only as a
whole and only on success: a failed handshake leaves the client state
exactly as it was, and a successful one stores exactly the newly issued
token. -/
theorem raystack_c9 (crypto : CryptoPrimitives) (st : SkySparkClient)
    (env : AuthEnv) :
    (∀ e st1, st.update_auth_token crypto env = (.err e, st1) → st1 = st)
    ∧ (∀ tok,
        new_auth_token_lib crypto st.project_api_url st.username st.password env
          = .ok tok →
        st.update_auth_token crypto env =
          (.ok (), { st with auth_token := tok })) := by
  constructor
  · intro e st1 h
    rcases hn : new_auth_token_lib crypto st.project_api_url st.username
        st.password env with tok | e2 | msg
    · simp [SkySparkClient.update_auth_token, hn] at h
    · simp only [SkySparkClient.update_auth_token, hn, Prod.mk.injEq] at h
      exact h.2.symm
    · simp [SkySparkClient.update_auth_token, hn] at h
  · intro tok hn
    simp only [SkySparkClient.update_auth_token, hn]

/-- C9 witness: a concrete successful refresh stores exactly the new
token `tok123` in an otherwise unchanged client. -/
theorem raystack_c9_witness :
    stC.update_auth_token trivialCrypto authEnvGood =
      (.ok (), { stC with auth_token := "tok123" }) :=
  (raystack_c9 trivialCrypto stC authEnvGood).2 "tok123" (by decide)

/-- C2 counterexample: the retry response's status is never inspected.
With a first Forbidden response, a successful re-authentication, and a
retry response that is again Forbidden but whose body parses as a
well-formed non-error grid, `get` returns that grid as a success — the
second Forbidden is not propagated as an error. -/
theorem raystack_c2_counterexample :
    envDoubleForbidden.firstResponse.status = FORBIDDEN
    ∧ envDoubleForbidden.retryResponse.status = FORBIDDEN
    ∧ (stC.get trivialCrypto urlC envDoubleForbidden).1 = .ok ⟨gridJsonC⟩ :=
  ⟨rfl, rfl, rfl⟩

/-- C2 (amended): on a first response that is not Forbidden, `get` and
`post` convert it directly, with no re-authentication; on a Forbidden
first response exactly one re-authentication runs, and when it succeeds
the same request is re-sent exactly once with the new token and the
converted retry response is returned as-is — its status is not
inspected, so no further attempt follows it — while a failed
re-authentication is propagated with no retry. -/
theorem raystack_c2 (crypto : CryptoPrimitives) (st : SkySparkClient)
    (url : Url) (grid : Grid) (env : RequestEnv) :
    (env.firstResponse.status ≠ FORBIDDEN →
      st.get crypto url env =
        (outcomeOfExcept (http_response_to_grid env.firstResponse), st,
         [Event.getRequest url st.auth_header_value])
      ∧ st.post crypto url grid env =
        (outcomeOfExcept (http_response_to_grid env.firstResponse), st,
         [Event.postRequest url grid st.auth_header_value]))
    ∧ (env.firstResponse.status = FORBIDDEN →
        (∀ st1, st.update_auth_token crypto env.authEnv = (.ok (), st1) →
          st.get crypto url env =
            (outcomeOfExcept (http_response_to_grid env.retryResponse), st1,
             [Event.getRequest url st.auth_header_value, .reauthenticate,
              Event.getRequest url st1.auth_header_value])
          ∧ st.post crypto url grid env =
            (outcomeOfExcept (http_response_to_grid env.retryResponse), st1,
             [Event.postRequest url grid st.auth_header_value, .reauthenticate,
              Event.postRequest url grid st1.auth_header_value]))
        ∧ (∀ e st1, st.update_auth_token crypto env.authEnv = (.err e, st1) →
          st.get crypto url env =
            (.err (.updateAuthToken e), st1,
             [Event.getRequest url st.auth_header_value, .reauthenticate])
          ∧ st.post crypto url grid env =
            (.err (.updateAuthToken e), st1,
             [Event.postRequest url grid st.auth_header_value,
              .reauthenticate]))) := by
  constructor
  · intro hs
    constructor <;> simp [SkySparkClient.get, SkySparkClient.post, hs]
  · intro hs
    constructor
    · intro st1 hup
      constructor <;>
        simp [SkySparkClient.get, SkySparkClient.post, hs, hup]
    · intro e st1 hup
      constructor <;>
        simp [SkySparkClient.get, SkySparkClient.post, hs, hup]

/-- C2 witness: the concrete double-Forbidden run, showing exactly one
re-authentication event, the stored new token, and the single retried
request sent with it. -/
theorem raystack_c2_witness :
    stC.get trivialCrypto urlC envDoubleForbidden =
      (outcomeOfExcept (http_response_to_grid envDoubleForbidden.retryResponse),
       { stC with auth_token := "tok123" },
       [Event.getRequest urlC stC.auth_header_value, .reauthenticate,
        Event.getRequest urlC
          (SkySparkClient.auth_header_value
            { stC with auth_token := "tok123" })]) :=
  (((raystack_c2 trivialCrypto stC urlC ⟨gridJsonC⟩ envDoubleForbidden).2
    rfl).1 { stC with auth_token := "tok123" } rfl).1

/-- Joining segments and then a trailing empty segment appends a slash. -/
theorem joinSegments_append_empty :
    ∀ (segs : List String), segs ≠ [] →
    joinSegments (segs ++ [""]) = joinSegments segs ++ "/"
  | [], h => absurd rfl h
  | [s], _ => String.append_empty (s ++ "/")
  | s :: y :: t, _ => by
      show s ++ "/" ++ joinSegments ((y :: t) ++ [""]) =
        (s ++ "/" ++ joinSegments (y :: t)) ++ "/"
      rw [joinSegments_append_empty (y :: t) (by simp)]
      simp only [String.append_assoc]

/-- The boolean path-segment check accepts exactly the lists of the form
`["api", p, ""]` with a non-empty project name `p`. -/
theorem hasValid_iff (v : Url) :
    has_valid_path_segments v = true ↔
      (v.cannot_be_a_base = false ∧
       ∃ p, p ≠ "" ∧ v.segments = ["api", p, ""]) := by
  unfold has_valid_path_segments Url.path_segments
  by_cases hc : v.cannot_be_a_base
  · simp [hc]
  · simp only [hc, Bool.false_eq_true, if_false, eq_self_iff_true, true_and]
    rcases hl : v.segments with _ | ⟨a, _ | ⟨b, _ | ⟨c, _ | ⟨d, t⟩⟩⟩⟩ <;>
      simp [List.get?]
    by_cases hb : b = ""
    · subst hb
      simp
      intro x hx h1 h2
      exact absurd h2.symm hx
    · simp [hb]
      constructor
      · rintro ⟨ha, hcc⟩
        exact ⟨b, hb, ha, rfl, hcc⟩
      · rintro ⟨p, hp, ha, rfl, hcc⟩
        exact ⟨ha, hcc⟩

/-- C10: the constructor first appends a trailing slash to the project
URL when its serialization does not already end in one; it rejects the
resulting URL — for every authentication environment, so before any
handshake — unless it is a base URL whose path segments are exactly
`api`, a non-empty project name, and the empty segment of the trailing
slash; when the URL is accepted the handshake result determines the
constructed client. -/
theorem raystack_c10 (u : Url) (crypto : CryptoPrimitives)
    (username password : String) (env : AuthEnv) :
    ((add_backslash_if_necessary u).as_str =
       if u.as_str.data.getLast? = some '/' then u.as_str
       else u.as_str ++ "/")
    ∧ ((add_backslash_if_necessary u).cannot_be_a_base = true →
        SkySparkClient.new_with_client crypto u username password env =
          .err (.url "the project API URL must be a valid base URL"))
    ∧ ((add_backslash_if_necessary u).cannot_be_a_base = false →
        has_valid_path_segments (add_backslash_if_necessary u) = false →
        SkySparkClient.new_with_client crypto u username password env =
          .err (.url
            "URL must be formatted similarly to http://www.test.com/api/project/"))
    ∧ (has_valid_path_segments (add_backslash_if_necessary u) = true ↔
        ((add_backslash_if_necessary u).cannot_be_a_base = false ∧
         ∃ p, p ≠ "" ∧ (add_backslash_if_necessary u).segments = ["api", p, ""]))
    ∧ (∀ tok, has_valid_path_segments (add_backslash_if_necessary u) = true →
        new_auth_token_lib crypto (add_backslash_if_necessary u)
          username password env = .ok tok →
        SkySparkClient.new_with_client crypto u username password env =
          .ok ⟨tok, username, password, add_backslash_if_necessary u⟩) := by
  refine ⟨?_, ?_, ?_, hasValid_iff _, ?_⟩
  · unfold add_backslash_if_necessary
    by_cases hs : u.as_str.data.getLast? = some '/'
    · simp [hs]
    · rw [if_neg hs, if_neg hs]
      unfold url_append_slash
      by_cases hc : u.cannot_be_a_base
      · simp [hc, Url.as_str]
      · have hcf : u.cannot_be_a_base = false := by simpa using hc
        have hne : u.segments ≠ [] := by
          intro h0
          apply hs
          show (u.as_str).data.getLast? = some '/'
          have hstr : u.as_str = u.host_part ++ "/" ++ "" := by
            simp [Url.as_str, hcf, h0, joinSegments]
          rw [hstr, String.append_empty, stringDataAppend]
          exact List.getLast?_concat _
        simp only [Url.as_str, hcf, Bool.false_eq_true, if_false]
        rw [joinSegments_append_empty u.segments hne]
        simp only [String.append_assoc]
  · intro hc
    simp [SkySparkClient.new_with_client, hc]
  · intro hc hv
    simp [SkySparkClient.new_with_client, hc, hv]
  · intro tok hv ha
    have hc : (add_backslash_if_necessary u).cannot_be_a_base = false :=
      ((hasValid_iff _).mp hv).1
    simp [SkySparkClient.new_with_client, hc, hv, ha]

/-- C10 witness: the concrete URL `http://www.test.com/api/proj` gets
its trailing slash appended, passes validation, and the constructor
returns the client built from the successful handshake. -/
theorem raystack_c10_witness :
    SkySparkClient.new_with_client trivialCrypto urlNoSlash
      "name" "p4ssw0rd" authEnvGood =
      .ok ⟨"tok123", "name", "p4ssw0rd", add_backslash_if_necessary urlNoSlash⟩ :=
  (raystack_c10 urlNoSlash trivialCrypto "name" "p4ssw0rd" authEnvGood).2.2.2.2
    "tok123" (by decide) (by decide)
